import Mathlib

/-!
# HTTP server lifecycle manager (`internal/foundation/server/server.go`)

A shallow embedding of the Go package `server`: the server builder
(`certInfo`, `createServer`), the startup sequence (`start`, `Run`) and the two
request middlewares (`logger`, `recovery`), followed by the properties proved
about them.

Conventions of the embedding.

* Package-level variables (`Config`, `Mode`) are explicit arguments.
* Calls into other packages (the Go standard library, gin, logrus, gracehttp
  and the sibling packages of this repository) are either fields of an
  environment record, when only their result matters, or small models of the
  library state they act on (the gin context and its response writer).
* A Go error value may be a nil pointer of its type or hold a nil `Err`; a
  method call or field access that dereferences one is a run-time panic, and
  functions of the embedding that can panic return `Except PanicValue`, the
  error being the value of the panic.
* Go maps are association lists.
-/

namespace server

/-! ## Server builder -/

/-- The `application` struct: the configuration block bound at startup. -/
structure application where
  Name : String := ""
  Schema : String := ""
  Domain : String := ""
  Addr : String := ""
  PasswordToken : String := ""
  JwtToken : String := ""
  CertFile : String := ""
  KeyFile : String := ""
  deriving DecidableEq, Repr

/-- The type `tls.Certificate`, reduced to its chain and private key; the
default value is Go's zero value `tls.Certificate{}`. -/
structure Certificate where
  Certificate : List String := []
  PrivateKey : Option String := none
  deriving DecidableEq, Repr

/-- The type `tls.Config`, reduced to the one field the package sets. -/
structure TLSConfig where
  Certificates : List Certificate := []
  deriving DecidableEq, Repr

/-- The type `http.Server` over a handler type `H`; `TLSConfig` is a pointer in
Go and `none` stands for the nil pointer. -/
structure Server (H : Type) where
  Addr : String
  Handler : H
  TLSConfig : Option TLSConfig := none

/-- The outcome of `tls.LoadX509KeyPair`: the loaded pair, or the load error. -/
abbrev LoadResult := Except String Certificate

/-- The first component of the Go result pair `(tls.Certificate, error)`: the
standard library returns the zero-value certificate together with every
error. -/
def LoadResult.cert : LoadResult → Certificate
  | .ok c => c
  | .error _ => {}

/-- The function `certInfo`: the configured certificate and key paths. -/
def certInfo (Config : application) : String × String :=
  (Config.CertFile, Config.KeyFile)

/-- The function `createServer`. `LoadX509KeyPair` stands for
`tls.LoadX509KeyPair`; its error is discarded, as in the source
(`f, _ := ...`). -/
def createServer {H : Type} (LoadX509KeyPair : String → String → LoadResult)
    (Config : application) (router : H) : Server H :=
  let server : Server H := { Addr := Config.Addr, Handler := router }
  let (certFile, certKey) := certInfo Config
  if certFile ≠ "" ∧ certKey ≠ "" then
    let f := (LoadX509KeyPair certFile certKey).cert
    { server with TLSConfig := some { Certificates := [f] } }
  else
    server

/-! ## Go values -/

/-- Go `error` values that are not the nil interface, by dynamic type:
`*net.OpError` and `*os.SyscallError`, each as a pointer to a struct whose
`Err` is an error, a pointer to a struct whose `Err` is nil, or the nil
pointer; and any other error type, kept as the text its `Error()` method
returns. -/
inductive GoError where
  | opError (Op Net : String) (Source Addr : Option String) (Err : GoError)
  | opErrorNoErr (Op Net : String) (Source Addr : Option String)
  | nilOpError
  | syscallError (Syscall : String) (Err : GoError)
  | syscallErrorNoErr (Syscall : String)
  | nilSyscallError
  | other (msg : String)
  deriving DecidableEq, Repr

/-- The text `(*net.OpError).Error` builds before the colon and the text of
`Err`. -/
def opErrorHead (op net : String) (source addr : Option String) : String :=
  let s := op
  let s := if net ≠ "" then s ++ " " ++ net else s
  let s := match source with
    | some a => s ++ " " ++ a
    | none => s
  match addr with
  | some a => (if source.isSome then s ++ "->" else s ++ " ") ++ a
  | none => s

/-- The `Error()` method, as the standard library defines it for
`*net.OpError` and `*os.SyscallError`; `none` when the call panics on a nil
pointer dereference. `(*net.OpError).Error` checks its receiver for nil,
`(*os.SyscallError).Error` does not, and both call `Err.Error()`. -/
def GoError.Error : GoError → Option String
  | .opError op net source addr err =>
    match err.Error with
    | some msg => some (opErrorHead op net source addr ++ ": " ++ msg)
    | none => none
  | .opErrorNoErr _ _ _ _ => none
  | .nilOpError => some "<nil>"
  | .syscallError syscall err =>
    match err.Error with
    | some msg => some (syscall ++ ": " ++ msg)
    | none => none
  | .syscallErrorNoErr _ => none
  | .nilSyscallError => none
  | .other msg => some msg

/-- No nil pointer and no nil `Err` anywhere in the error. -/
def GoError.nilFree : GoError → Bool
  | .opError _ _ _ _ err => err.nilFree
  | .syscallError _ err => err.nilFree
  | .other _ => true
  | .opErrorNoErr _ _ _ _ => false
  | .nilOpError => false
  | .syscallErrorNoErr _ => false
  | .nilSyscallError => false

/-- A non-nil value of type `interface{}` handed to `panic`: an error, or a
value that does not implement `error` (a string, an integer, a channel). -/
inductive PanicValue where
  | error (e : GoError)
  | string (s : String)
  | int (n : Int)
  | chan
  deriving DecidableEq, Repr

/-- No nil pointer and no nil `Err` anywhere in the value. -/
def PanicValue.nilFree : PanicValue → Bool
  | .error e => e.nilFree
  | _ => true

/-- The type assertion `err.(error)`: `none` when the assertion fails. -/
def PanicValue.asError : PanicValue → Option GoError
  | .error e => some e
  | _ => none

/-- The value of the run-time panic on a nil pointer dereference. -/
def nilDereference : PanicValue :=
  .error (.other "runtime error: invalid memory address or nil pointer dereference")

/-- The function `strings.Contains`. -/
def Contains (s substr : String) : Bool :=
  decide (substr.data <:+: s.data)

/-! ## Requests, log records and the gin context -/

/-- The fields of `url.URL` the package reads. -/
structure URL where
  Path : String := ""
  RawQuery : String := ""
  deriving DecidableEq, Repr

/-- The fields of `http.Request` the package reads. -/
structure Request where
  Method : String := "GET"
  URL : URL := {}
  Header : List (String × String) := []
  Body : String := ""
  deriving DecidableEq, Repr

/-- The method `Request.UserAgent`: the `User-Agent` header, or the empty
string. -/
def Request.UserAgent (r : Request) : String :=
  (r.Header.lookup "User-Agent").getD ""

/-- One entry of the slice `app2.Stack` returns: a map with the keys `func`,
`source`, `file` and `line`. -/
structure Frame where
  func : String
  source : String
  file : String
  line : Nat
  deriving DecidableEq, Repr

/-- The values stored in `logrus.Fields` and `gin.H` maps and passed to the
logging calls. -/
inductive Value where
  | str (s : String)
  | int (n : Int)
  | duration (ns : Int)
  | panic (v : PanicValue)
  | frames (stack : List Frame)
  | records (l : List (List (String × String)))
  | keys (m : List (String × String))
  deriving DecidableEq, Repr

/-- A `logrus.Fields` or `gin.H` map. -/
abbrev Fields := List (String × Value)

/-- Map assignment `m[k] = v`. -/
def Fields.set (m : Fields) (k : String) (v : Value) : Fields :=
  m.filter (fun kv => kv.1 != k) ++ [(k, v)]

/-- The logrus levels the package logs at. -/
inductive Level where
  | error
  | info
  deriving DecidableEq, Repr

/-- One record emitted through `app2.Logger()`: its level, its fields, and the
arguments of the `Error`, `Info` call that emitted it. -/
structure Entry where
  level : Level
  fields : Fields
  args : List Value
  deriving DecidableEq, Repr

/-- What gin's response writer has handed to the underlying
`http.ResponseWriter`, on its way to the client. -/
inductive Wire where
  | statusLine (code : Nat)
  | body (data : String)
  deriving DecidableEq, Repr

/-- The gin response writer: `status` and `size` as in gin (`size = -1` is
gin's `noWritten`), and `sent`, what went to the underlying
`http.ResponseWriter`. Response headers other than the status line are not
modelled. -/
structure ResponseWriter where
  status : Nat := 200
  size : Int := -1
  sent : List Wire := []
  deriving DecidableEq, Repr

/-- The method `Written`. -/
def ResponseWriter.Written (w : ResponseWriter) : Bool :=
  w.size != -1

/-- The method `WriteHeader` of gin's writer: records the status code, unless
the header already went out (earlier gin releases record it even then; the two
agree on a writer that has sent nothing and on a code equal to the status). -/
def ResponseWriter.WriteHeader (w : ResponseWriter) (code : Nat) : ResponseWriter :=
  if code > 0 ∧ w.status ≠ code then
    if w.Written then w else { w with status := code }
  else w

/-- The method `WriteHeaderNow`: sends the status line once. -/
def ResponseWriter.WriteHeaderNow (w : ResponseWriter) : ResponseWriter :=
  if !w.Written then
    { w with size := 0, sent := w.sent ++ [.statusLine w.status] }
  else w

/-- The method `Write`: sends the status line if needed, then hands the data
to the underlying writer, whose result `(n, err)` is `result`; `size` grows by
`n` and `err` is returned. -/
def ResponseWriter.Write (w : ResponseWriter) (data : String)
    (result : Nat × Option String) : ResponseWriter × Option String :=
  let w := w.WriteHeaderNow
  ({ w with size := w.size + result.1, sent := w.sent ++ [.body data] }, result.2)

/-- The body bytes sent so far. -/
def ResponseWriter.bodySent (w : ResponseWriter) : List String :=
  w.sent.filterMap fun x =>
    match x with
    | .body d => some d
    | .statusLine _ => none

/-- The status lines sent so far. -/
def ResponseWriter.statusSent (w : ResponseWriter) : List Nat :=
  w.sent.filterMap fun x =>
    match x with
    | .statusLine c => some c
    | .body _ => none

/-- The parts of `gin.Context` the middlewares touch; `aborted` stands for
`index = abortIndex`. -/
structure Context where
  Request : Request := {}
  Writer : ResponseWriter := {}
  Keys : List (String × String) := []
  Errors : List GoError := []
  aborted : Bool := false
  deriving DecidableEq, Repr

/-- What the package calls but does not define: `gin.IsDebugging`,
`app2.Stack`, `httputil.DumpRequest`, `json.Marshal` on a `gin.H` (the
encoding, or the encoding error), the result `(n, err)` of the underlying
`http.ResponseWriter.Write` on given data, `strings.ToLower`, gin's
`Context.ClientIP`, and whether the gin release in use panics on a render
error (older releases) or registers it on the context (later releases). -/
structure Env where
  IsDebugging : Bool
  Stack : Nat → List Frame
  DumpRequest : Request → Bool → String
  Marshal : Fields → Except String String
  Write : String → Nat × Option String
  ToLower : String → String
  ClientIP : Request → String
  RenderPanics : Bool

/-- The method `Abort`. -/
def Context.Abort (c : Context) : Context :=
  { c with aborted := true }

/-- The method `Status`. -/
def Context.Status (c : Context) (code : Nat) : Context :=
  { c with Writer := c.Writer.WriteHeader code }

/-- The method `AbortWithStatus`. -/
def Context.AbortWithStatus (c : Context) (code : Nat) : Context :=
  let c := c.Status code
  let c := { c with Writer := c.Writer.WriteHeaderNow }
  c.Abort

/-- Function `bodyAllowedForStatus` of gin. -/
def bodyAllowedForStatus (status : Nat) : Bool :=
  if 100 ≤ status ∧ status ≤ 199 then false
  else if status = 204 then false
  else if status = 304 then false
  else true

/-- The method `Error`: appends the error to `c.Errors`. -/
def Context.Error (c : Context) (err : GoError) : Context :=
  { c with Errors := c.Errors ++ [err] }

/-- What gin does with the error of a render: older releases panic with it,
later ones register it on the context and abort. -/
def Context.renderError (env : Env) (c : Context) (err : String) :
    Except PanicValue Context :=
  if env.RenderPanics then .error (.error (.other err))
  else .ok (c.Error (.other err)).Abort

/-- The method `JSON`, through `Render`: sets the status, encodes the object
and writes the encoding. An encoding error leaves nothing written; an
encoding error and a write error both end in `renderError`. -/
def Context.JSON (env : Env) (c : Context) (code : Nat) (obj : Fields) :
    Except PanicValue Context :=
  let c := c.Status code
  if !bodyAllowedForStatus code then
    .ok { c with Writer := c.Writer.WriteHeaderNow }
  else
    match env.Marshal obj with
    | .error err => c.renderError env err
    | .ok data =>
      let (w, err) := c.Writer.Write data (env.Write data)
      let c := { c with Writer := w }
      match err with
      | some err => c.renderError env err
      | none => .ok c

/-- The method `AbortWithStatusJSON`. -/
def Context.AbortWithStatusJSON (env : Env) (c : Context) (code : Nat) (jsonObj : Fields) :
    Except PanicValue Context :=
  let c := c.Abort
  c.JSON env code jsonObj

/-- The request being served together with its surroundings: the gin context,
the records emitted so far through `app2.Logger()`, and the clock `time.Now`
reads. -/
structure State where
  ctx : Context := {}
  log : List Entry := []
  now : Int := 0
  deriving DecidableEq, Repr

/-- Emit one record through `app2.Logger()`. -/
def State.emit (s : State) (e : Entry) : State :=
  { s with log := s.log ++ [e] }

/-! ## Logging middleware -/

/-- The function `logger`. `next` is `ctx.Next()` for a downstream chain that
completes. -/
def logger (env : Env) (next : State → State) (s : State) : State :=
  let start := s.now
  let path := s.ctx.Request.URL.Path
  let raw := s.ctx.Request.URL.RawQuery
  let s := next s
  let path := if raw ≠ "" then path ++ "?" ++ raw else path
  let params : Fields := []
  let params := params.set "latency" (.duration (s.now - start))
  let params := params.set "path" (.str path)
  let params := params.set "method" (.str s.ctx.Request.Method)
  let params := params.set "status" (.int s.ctx.Writer.status)
  let params := params.set "body_size" (.int s.ctx.Writer.size)
  let params := params.set "client_ip" (.str (env.ClientIP s.ctx.Request))
  let params := params.set "user_agent" (.str s.ctx.Request.UserAgent)
  let params := params.set "log_type" (.str "foundation.server.server")
  let params :=
    if !env.IsDebugging then params.set "keys" (.keys s.ctx.Keys) else params
  s.emit
    { level := .info
      fields := params
      args := [.str "request success, status is ", .int s.ctx.Writer.status,
        .str ", client ip is ", .str (env.ClientIP s.ctx.Request)] }

/-! ## Recovery middleware -/

/-- The classification computed into the local `brokenPipe` of `recovery`:
the assertion `err.(*net.OpError)`, the field access `ne.Err` and its
assertion to `*os.SyscallError`, and the two tests on `se.Error()`. The access
`ne.Err` on a nil `ne` and a call `se.Error()` that dereferences a nil pointer
panic. -/
def brokenPipe (env : Env) (err : PanicValue) : Except PanicValue Bool :=
  match err with
  | .error .nilOpError => .error nilDereference
  | .error (.opError _ _ _ _ neErr) =>
    match neErr with
    | .syscallError syscall cause =>
      match (GoError.syscallError syscall cause).Error with
      | some msg =>
        .ok (Contains (env.ToLower msg) "broken pipe" ||
          Contains (env.ToLower msg) "connection reset by peer")
      | none => .error nilDereference
    | .syscallErrorNoErr _ => .error nilDereference
    | .nilSyscallError => .error nilDereference
    | _ => .ok false
  | _ => .ok false

/-- The loop of `recovery` that builds `errors`: one `logrus.Fields` per frame
of the stack, with the keys `func`, `source` and `file` (the file and the line,
formatted `%s:%d`). -/
def stackFields : List Frame → List (List (String × String))
  | [] => []
  | fr :: rest =>
    [("func", fr.func), ("source", fr.source),
      ("file", fr.file ++ ":" ++ toString fr.line)] :: stackFields rest

/-- The deferred function of `recovery` for a recovered value `err`. The result
is `.error v` when the deferred function itself panics with `v`: in the
classification, in the JSON render of the debug branch, or at the unchecked
assertion `err.(error)`. -/
def recovered (env : Env) (err : PanicValue) (s : State) : Except PanicValue State :=
  match brokenPipe env err with
  | .error v => .error v
  | .ok brokenPipe =>
    let stack := env.Stack 3
    let httpRequest := env.DumpRequest s.ctx.Request false
    let answered : Except PanicValue State :=
      if env.IsDebugging then
        let s := s.emit
          { level := .error
            fields := [("log_type", .str "foundation.server.server")]
            args := [.str httpRequest] }
        let errors := stackFields stack
        let s := s.emit
          { level := .error
            fields := [("log_type", .str "foundation.server.server"),
              ("stack", .records errors)]
            args := [.panic err] }
        let H : Fields := [("stack", .records errors), ("message", .panic err)]
        match s.ctx.AbortWithStatusJSON env 500 H with
        | .error v => .error v
        | .ok c => .ok { s with ctx := c }
      else
        .ok (s.emit
          { level := .error
            fields := [("log_type", .str "foundation.server.server"),
              ("stack", .frames stack), ("request", .str httpRequest)]
            args := [] })
    match answered with
    | .error v => .error v
    | .ok s =>
      if brokenPipe then
        match err.asError with
        | some e => .ok { s with ctx := (s.ctx.Error e).Abort }
        | none => .error (.error (.other "interface conversion: interface is not error"))
      else
        .ok { s with ctx := s.ctx.AbortWithStatus 500 }

/-- The function `recovery`. `next` is `ctx.Next()`: the state the downstream
chain leaves, and the value it panicked with, if it did (`recover()` returns
nil when it did not). The result is `.error v` when a panic with `v` leaves
`recovery`. -/
def recovery (env : Env) (next : State → State × Option PanicValue) (s : State) :
    Except PanicValue State :=
  match next s with
  | (s, none) => .ok s
  | (s, some err) => recovered env err s

/-! ## Startup -/

/-- The externally visible steps of `Run`, in the order they happen. `E` is the
engine type and `H` the handler type. -/
inductive Step (E H : Type) where
  | logStart
  | ormStart
  | viewInit
  | viewAddPath (path : String)
  | configBind (name key : String)
  | println (err : String)
  | setValidator
  | logInfo
  | getEngine
  | router (engine : E)
  | getHandler (engine : E)
  | createServer (server : Server H)
  | serveWithOptions (servers : List (Server H))

/-- What `start` and `Run` call but the package does not define: the variable
`Mode`, `app2.Config().Bind` (the configuration it leaves in `Config` and its
error), `engine.GetEngine`, the engine's `GetHandler`, and
`tls.LoadX509KeyPair`. -/
structure Sys (E H : Type) where
  Mode : String
  Bind : String → String → application → application × Option String
  GetEngine : E
  GetHandler : E → H
  LoadX509KeyPair : String → String → LoadResult

/-- The function `start`: the configuration it leaves in `Config` and the steps
it performs. -/
def start {E H : Type} (sys : Sys E H) (Config : application) :
    application × List (Step E H) :=
  let steps : List (Step E H) := [.logStart, .ormStart, .viewInit]
  let steps := steps ++ [.viewAddPath ("/view/" ++ sys.Mode ++ "/")]
  let (Config, err) := sys.Bind "application" ("application." ++ sys.Mode) Config
  let steps := steps ++ [.configBind "application" ("application." ++ sys.Mode)]
  let steps :=
    match err with
    | some e => steps ++ [.println e]
    | none => steps
  (Config, steps ++ [.setValidator])

/-- The function `Run`: the steps it performs up to and including the hand-over
of the server to `gracehttp.ServeWithOptions`. `router` is the caller's
route-registration function, which acts on the engine. -/
def Run {E H : Type} (sys : Sys E H) (Config : application) (router : E → E) :
    List (Step E H) :=
  let (Config, steps) := start sys Config
  let steps := steps ++ [.logInfo]
  let engineInst := sys.GetEngine
  let steps := steps ++ [.getEngine]
  let steps := steps ++ [.router engineInst]
  let engineInst := router engineInst
  let steps := steps ++ [.getHandler engineInst]
  let server := createServer sys.LoadX509KeyPair Config (sys.GetHandler engineInst)
  let steps := steps ++ [.createServer server]
  steps ++ [.serveWithOptions [server]]

/-! ## Concrete inputs -/

/-- Lowercasing of the ASCII letters, on which `strings.ToLower` agrees. -/
def asciiLower (s : String) : String :=
  ⟨s.data.map Char.toLower⟩

/-- A sample environment: one stack frame, a request dump of method and path,
a JSON encoder that lists the keys of the object and fails on a channel, as
`json.Marshal` does, writes that succeed, and a gin that registers render
errors. -/
def sampleEnv (debug : Bool) : Env where
  IsDebugging := debug
  Stack := fun _ => [⟨"main.handler", "panic(err)", "main.go", 42⟩]
  DumpRequest := fun r _ => r.Method ++ " " ++ r.URL.Path
  Marshal := fun m =>
    if m.any (fun kv => kv.2 == .panic .chan) then .error "json: unsupported type: chan int"
    else .ok (String.intercalate "," (m.map Prod.fst))
  Write := fun data => (data.utf8ByteSize, none)
  ToLower := asciiLower
  ClientIP := fun _ => "127.0.0.1"
  RenderPanics := false

/-- The sample environment with a gin that panics on render errors. -/
def sampleEnvOlderGin (debug : Bool) : Env :=
  { sampleEnv debug with RenderPanics := true }

/-- The panic value of a write to a connection the peer closed:
`&net.OpError{Op: "write", Net: "tcp", Err: &os.SyscallError{"write", EPIPE}}`. -/
def brokenPipeError : PanicValue :=
  .error (.opError "write" "tcp" none none (.syscallError "write" (.other "broken pipe")))

/-- A downstream chain that panics with `v` before writing anything. -/
def panicsWith (v : PanicValue) (s : State) : State × Option PanicValue :=
  (s, some v)

/-- A downstream chain that writes `data` under the status 200, the write
succeeding, and then panics with `v`. -/
def writesThenPanicsWith (data : String) (v : PanicValue) (s : State) :
    State × Option PanicValue :=
  ({ s with ctx := { s.ctx with
      Writer := (s.ctx.Writer.Write data (data.utf8ByteSize, none)).1 } }, some v)

/-- A state in which a GET request for `path` with the query string `raw`
arrives and nothing has been written or logged. -/
def requestTo (path raw : String) : State :=
  { ctx := { Request := { URL := { Path := path, RawQuery := raw } } } }

/-- The field `k` of a log record. -/
def Entry.field (e : Entry) (k : String) : Option Value :=
  e.fields.lookup k

/-! ## Properties of the server builder -/

/-- C1: `createServer` returns a server whose TLS configuration is present
exactly when both the certificate path and the key path are non-empty; when
either is empty the TLS configuration is absent, and the server still carries
the configured address and the handler. -/
theorem createServer_tls_iff {H : Type} (load : String → String → LoadResult)
    (Config : application) (router : H) :
    ((createServer load Config router).TLSConfig.isSome = true ↔
        (Config.CertFile ≠ "" ∧ Config.KeyFile ≠ "")) ∧
    ((Config.CertFile = "" ∨ Config.KeyFile = "") →
        (createServer load Config router).TLSConfig = none ∧
        (createServer load Config router).Addr = Config.Addr ∧
        (createServer load Config router).Handler = router) := by
  unfold createServer certInfo
  by_cases hc : Config.CertFile = "" <;> by_cases hk : Config.KeyFile = "" <;>
    simp [hc, hk]

/-- C1 at concrete inputs: a configuration with only a certificate path gives a
plaintext server. -/
theorem createServer_tls_iff_witness :
    (createServer (fun _ _ => .error "unreadable")
        { Addr := ":8080", CertFile := "cert.pem" } "h").TLSConfig = none ∧
    (createServer (fun _ _ => .error "unreadable")
        { Addr := ":8080", CertFile := "cert.pem" } "h").Addr = ":8080" ∧
    (createServer (fun _ _ => .error "unreadable")
        { Addr := ":8080", CertFile := "cert.pem" } "h").Handler = "h" :=
  (createServer_tls_iff (fun _ _ => .error "unreadable")
    { Addr := ":8080", CertFile := "cert.pem" } "h").2 (Or.inr rfl)

/-- C9: with a non-empty certificate path and a non-empty key path,
`createServer` returns a server bound to the configured address with the given
handler and a TLS configuration holding exactly one certificate: the loaded
pair when loading succeeds, the zero-value certificate when loading fails. -/
theorem createServer_with_paths {H : Type} (load : String → String → LoadResult)
    (Config : application) (router : H)
    (hc : Config.CertFile ≠ "") (hk : Config.KeyFile ≠ "") :
    (createServer load Config router).Addr = Config.Addr ∧
    (createServer load Config router).Handler = router ∧
    (∃ cert, (createServer load Config router).TLSConfig =
        some { Certificates := [cert] } ∧
      (∀ c, load Config.CertFile Config.KeyFile = .ok c → cert = c) ∧
      (∀ e, load Config.CertFile Config.KeyFile = .error e →
        cert = ({} : Certificate))) := by
  unfold createServer certInfo
  simp only [hc, hk, ne_eq, not_false_eq_true, and_self, if_true]
  refine ⟨trivial, trivial, _, rfl, ?_, ?_⟩
  · intro c h
    simp [h, LoadResult.cert]
  · intro e h
    simp [h, LoadResult.cert]

/-- C9 at a concrete input: both paths set and a loader that fails. -/
theorem createServer_with_paths_witness :
    (createServer (fun _ _ => .error "no such file")
        { Addr := ":443", CertFile := "c.pem", KeyFile := "k.pem" } "h").Addr = ":443" ∧
    (createServer (fun _ _ => .error "no such file")
        { Addr := ":443", CertFile := "c.pem", KeyFile := "k.pem" } "h").Handler = "h" ∧
    (∃ cert, (createServer (fun _ _ => .error "no such file")
        { Addr := ":443", CertFile := "c.pem", KeyFile := "k.pem" } "h").TLSConfig =
        some { Certificates := [cert] } ∧
      (∀ c, (fun _ _ => .error "no such file" : String → String → LoadResult)
          "c.pem" "k.pem" = .ok c → cert = c) ∧
      (∀ e, (fun _ _ => .error "no such file" : String → String → LoadResult)
          "c.pem" "k.pem" = .error e → cert = ({} : Certificate))) :=
  createServer_with_paths (fun _ _ => .error "no such file")
    { Addr := ":443", CertFile := "c.pem", KeyFile := "k.pem" } "h"
    (by decide) (by decide)

/-! ## Properties of the recovery middleware -/

/-- An error that holds no nil pointer has an `Error()` text. -/
theorem Error_of_nilFree (e : GoError) (h : e.nilFree = true) : ∃ msg, e.Error = some msg := by
  induction e with
  | opError op net source addr err ih =>
    obtain ⟨msg, hmsg⟩ := ih (by simpa [GoError.nilFree] using h)
    exact ⟨opErrorHead op net source addr ++ ": " ++ msg, by simp [GoError.Error, hmsg]⟩
  | syscallError syscall err ih =>
    obtain ⟨msg, hmsg⟩ := ih (by simpa [GoError.nilFree] using h)
    exact ⟨syscall ++ ": " ++ msg, by simp [GoError.Error, hmsg]⟩
  | other msg => exact ⟨msg, rfl⟩
  | opErrorNoErr _ _ _ _ => simp [GoError.nilFree] at h
  | nilOpError => simp [GoError.nilFree] at h
  | syscallErrorNoErr _ => simp [GoError.nilFree] at h
  | nilSyscallError => simp [GoError.nilFree] at h

/-- The classification of a value that holds no nil pointer does not panic. -/
theorem brokenPipe_of_nilFree (env : Env) (err : PanicValue) (h : err.nilFree = true) :
    ∃ b, brokenPipe env err = .ok b := by
  match err, h with
  | .error (.opError op net source addr (.syscallError syscall cause)), h =>
    obtain ⟨msg, hmsg⟩ := Error_of_nilFree (.syscallError syscall cause)
      (by simpa [PanicValue.nilFree, GoError.nilFree] using h)
    exact ⟨Contains (env.ToLower msg) "broken pipe" ||
      Contains (env.ToLower msg) "connection reset by peer", by simp only [brokenPipe, hmsg]⟩
  | .error (.opError _ _ _ _ (.opError _ _ _ _ _)), _ => exact ⟨false, rfl⟩
  | .error (.opError _ _ _ _ (.other _)), _ => exact ⟨false, rfl⟩
  | .error (.opError _ _ _ _ (.opErrorNoErr _ _ _ _)), _ => exact ⟨false, rfl⟩
  | .error (.opError _ _ _ _ .nilOpError), _ => exact ⟨false, rfl⟩
  | .error (.opError _ _ _ _ (.syscallErrorNoErr _)), h =>
    simp [PanicValue.nilFree, GoError.nilFree] at h
  | .error (.opError _ _ _ _ .nilSyscallError), h =>
    simp [PanicValue.nilFree, GoError.nilFree] at h
  | .error .nilOpError, h => simp [PanicValue.nilFree, GoError.nilFree] at h
  | .error (.opErrorNoErr _ _ _ _), _ => exact ⟨false, rfl⟩
  | .error (.syscallError _ _), _ => exact ⟨false, rfl⟩
  | .error (.syscallErrorNoErr _), _ => exact ⟨false, rfl⟩
  | .error .nilSyscallError, _ => exact ⟨false, rfl⟩
  | .error (.other _), _ => exact ⟨false, rfl⟩
  | .string _, _ => exact ⟨false, rfl⟩
  | .int _, _ => exact ⟨false, rfl⟩
  | .chan, _ => exact ⟨false, rfl⟩

/-- A value marked a transport disconnect is a non-nil `*net.OpError` whose
`Err` is a non-nil `*os.SyscallError` with a matching message. -/
theorem brokenPipe_shape (env : Env) (err : PanicValue) (h : brokenPipe env err = .ok true) :
    ∃ op net source addr syscall cause msg,
      err = .error (.opError op net source addr (.syscallError syscall cause)) ∧
      (GoError.syscallError syscall cause).Error = some msg ∧
      (Contains (env.ToLower msg) "broken pipe" = true ∨
        Contains (env.ToLower msg) "connection reset by peer" = true) := by
  match err, h with
  | .error (.opError op net source addr (.syscallError syscall cause)), h =>
    cases hmsg : (GoError.syscallError syscall cause).Error with
    | none => simp [brokenPipe, hmsg] at h
    | some msg =>
      refine ⟨op, net, source, addr, syscall, cause, msg, rfl, hmsg, ?_⟩
      simpa [brokenPipe, hmsg] using h
  | .error (.opError _ _ _ _ (.opError _ _ _ _ _)), h => simp [brokenPipe] at h
  | .error (.opError _ _ _ _ (.other _)), h => simp [brokenPipe] at h
  | .error (.opError _ _ _ _ (.opErrorNoErr _ _ _ _)), h => simp [brokenPipe] at h
  | .error (.opError _ _ _ _ .nilOpError), h => simp [brokenPipe] at h
  | .error (.opError _ _ _ _ (.syscallErrorNoErr _)), h => simp [brokenPipe] at h
  | .error (.opError _ _ _ _ .nilSyscallError), h => simp [brokenPipe] at h
  | .error .nilOpError, h => simp [brokenPipe] at h
  | .error (.opErrorNoErr _ _ _ _), h => simp [brokenPipe] at h
  | .error (.syscallError _ _), h => simp [brokenPipe] at h
  | .error (.syscallErrorNoErr _), h => simp [brokenPipe] at h
  | .error .nilSyscallError, h => simp [brokenPipe] at h
  | .error (.other _), h => simp [brokenPipe] at h
  | .string _, h => simp [brokenPipe] at h
  | .int _, h => simp [brokenPipe] at h
  | .chan, h => simp [brokenPipe] at h

/-- A value marked a transport disconnect implements `error`: the assertion
`err.(error)` succeeds on it. -/
theorem asError_of_brokenPipe (env : Env) (err : PanicValue)
    (h : brokenPipe env err = .ok true) : ∃ e, err = .error e ∧ err.asError = some e := by
  obtain ⟨op, net, source, addr, syscall, cause, msg, rfl, -, -⟩ := brokenPipe_shape env err h
  exact ⟨_, rfl, rfl⟩

/-- C2: a recovered value is marked a transport disconnect exactly when it is a
`*net.OpError` whose `Err` is an `*os.SyscallError` whose message, lowercased,
contains "broken pipe" or "connection reset by peer"; every other value is an
application fault (`brokenPipe` is not true). -/
theorem brokenPipe_iff (env : Env) (err : PanicValue) :
    brokenPipe env err = .ok true ↔
      ∃ op net source addr syscall cause msg,
        err = .error (.opError op net source addr (.syscallError syscall cause)) ∧
        (GoError.syscallError syscall cause).Error = some msg ∧
        (Contains (env.ToLower msg) "broken pipe" = true ∨
          Contains (env.ToLower msg) "connection reset by peer" = true) := by
  constructor
  · exact brokenPipe_shape env err
  · rintro ⟨op, net, source, addr, syscall, cause, msg, rfl, hmsg, h⟩
    simpa [brokenPipe, hmsg] using h

/-- Gin's `AbortWithStatus 500` on a writer that has sent nothing: the status
becomes 500 and the status line goes out, with no body. -/
theorem AbortWithStatus_fresh (c : Context) (h : c.Writer.Written = false) :
    (c.AbortWithStatus 500).aborted = true ∧
    (c.AbortWithStatus 500).Writer.status = 500 ∧
    (c.AbortWithStatus 500).Writer.sent = c.Writer.sent ++ [.statusLine 500] ∧
    (c.AbortWithStatus 500).Writer.Written = true := by
  have hsize : c.Writer.size = -1 := by simpa [ResponseWriter.Written] using h
  by_cases hs : c.Writer.status = 500 <;>
    simp [Context.AbortWithStatus, Context.Status, Context.Abort,
      ResponseWriter.WriteHeader, ResponseWriter.WriteHeaderNow, hsize, hs,
      ResponseWriter.Written]

/-- Gin's `AbortWithStatus 500` after the header went out with the status 500
changes nothing but the abort flag. -/
theorem AbortWithStatus_written (c : Context) (h : c.Writer.Written = true)
    (hs : c.Writer.status = 500) :
    (c.AbortWithStatus 500).aborted = true ∧
    (c.AbortWithStatus 500).Writer = c.Writer := by
  simp [Context.AbortWithStatus, Context.Status, Context.Abort,
    ResponseWriter.WriteHeader, ResponseWriter.WriteHeaderNow, h, hs]

/-- Gin's `AbortWithStatus` never sends body bytes, whatever the writer has
sent before. -/
theorem AbortWithStatus_bodySent (c : Context) (code : Nat) :
    (c.AbortWithStatus code).Writer.bodySent = c.Writer.bodySent := by
  by_cases hw : c.Writer.size = -1 <;> by_cases hs : c.Writer.status = code <;>
    by_cases hc : 0 < code <;>
    simp [Context.AbortWithStatus, Context.Status, Context.Abort,
      ResponseWriter.WriteHeader, ResponseWriter.WriteHeaderNow, ResponseWriter.Written,
      ResponseWriter.bodySent, hw, hs, hc]

/-- Gin's `AbortWithStatus` sets the abort flag. -/
theorem AbortWithStatus_aborted (c : Context) (code : Nat) :
    (c.AbortWithStatus code).aborted = true := by
  simp [Context.AbortWithStatus, Context.Abort]

/-- Gin's `AbortWithStatusJSON 500` when the object is encoded and written
without error: the encoding is sent as body bytes, whatever was sent before,
and on a writer that has sent nothing the status line 500 precedes it. -/
theorem AbortWithStatusJSON_sends (env : Env) (c : Context) (obj : Fields) (body : String)
    (hm : env.Marshal obj = .ok body) (hw : (env.Write body).2 = none) :
    ∃ c', c.AbortWithStatusJSON env 500 obj = .ok c' ∧
      c'.aborted = true ∧ c'.Errors = c.Errors ∧
      c'.Writer.bodySent = c.Writer.bodySent ++ [body] ∧
      (c.Writer.Written = false →
        c'.Writer.status = 500 ∧ c'.Writer.Written = true ∧
        c'.Writer.sent = c.Writer.sent ++ [.statusLine 500, .body body]) := by
  by_cases hsz : c.Writer.size = -1 <;> by_cases hs : c.Writer.status = 500 <;>
    simp [Context.AbortWithStatusJSON, Context.JSON, Context.Status, Context.Abort,
      ResponseWriter.WriteHeader, ResponseWriter.WriteHeaderNow, ResponseWriter.Write,
      ResponseWriter.Written, ResponseWriter.bodySent, bodyAllowedForStatus, hm, hw, hsz, hs]

/-- Gin's `AbortWithStatusJSON 500` returns when the gin release registers
render errors, and when the object is encoded and written without error. -/
theorem AbortWithStatusJSON_returns (env : Env) (c : Context) (obj : Fields)
    (h : env.RenderPanics = false ∨
      ∃ body, env.Marshal obj = .ok body ∧ (env.Write body).2 = none) :
    ∃ c', c.AbortWithStatusJSON env 500 obj = .ok c' := by
  rcases h with h | ⟨body, hm, hw⟩
  · cases hm : env.Marshal obj with
    | error e =>
      simp [Context.AbortWithStatusJSON, Context.JSON, Context.renderError,
        bodyAllowedForStatus, hm, h]
    | ok body =>
      cases hw : (env.Write body).2 <;>
        simp [Context.AbortWithStatusJSON, Context.JSON, Context.renderError,
          ResponseWriter.Write, bodyAllowedForStatus, hm, hw, h]
  · obtain ⟨c', hc', -⟩ := AbortWithStatusJSON_sends env c obj body hm hw
    exact ⟨c', hc'⟩

/-- The loop that builds `errors` yields one entry per frame. -/
theorem stackFields_length (stack : List Frame) :
    (stackFields stack).length = stack.length := by
  induction stack with
  | nil => rfl
  | cons fr rest ih => simp [stackFields, ih]


/-- In non-debug mode a transport disconnect sends nothing to the client: the
error is registered on the context and the chain is aborted. -/
theorem recovered_disconnect_release (env : Env) (err : PanicValue) (s : State)
    (hmode : env.IsDebugging = false) (hpipe : brokenPipe env err = .ok true) :
    ∃ e s', err = .error e ∧ recovered env err s = .ok s' ∧
      s'.ctx.Writer = s.ctx.Writer ∧ s'.ctx.Errors = s.ctx.Errors ++ [e] ∧
      s'.ctx.aborted = true := by
  obtain ⟨e, rfl, he⟩ := asError_of_brokenPipe env err hpipe
  simp [recovered, hpipe, hmode, he, State.emit, Context.Error, Context.Abort]

/-- In debug mode a transport disconnect is answered like any other fault:
when the object is encoded and written without error, the JSON body is sent
to the client, whatever was sent before, and when nothing was, the status
line 500 precedes it. -/
theorem recovered_disconnect_debug (env : Env) (err : PanicValue) (s : State) (body : String)
    (hmode : env.IsDebugging = true) (hpipe : brokenPipe env err = .ok true)
    (hm : env.Marshal [("stack", .records (stackFields (env.Stack 3))),
      ("message", .panic err)] = .ok body)
    (hw : (env.Write body).2 = none) :
    ∃ s', recovered env err s = .ok s' ∧
      s'.ctx.Writer.bodySent = s.ctx.Writer.bodySent ++ [body] ∧
      (s.ctx.Writer.Written = false →
        s'.ctx.Writer.sent = s.ctx.Writer.sent ++ [.statusLine 500, .body body]) := by
  obtain ⟨e, rfl, he⟩ := asError_of_brokenPipe env err hpipe
  obtain ⟨c', hc', -, -, hb, hfr⟩ := AbortWithStatusJSON_sends env s.ctx _ body hm hw
  refine ⟨{ s with
      log := s.log ++
        [{ level := .error
           fields := [("log_type", .str "foundation.server.server")]
           args := [.str (env.DumpRequest s.ctx.Request false)] },
         { level := .error
           fields := [("log_type", .str "foundation.server.server"),
             ("stack", .records (stackFields (env.Stack 3)))]
           args := [.panic (.error e)] }]
      ctx := (c'.Error e).Abort }, ?_, ?_, ?_⟩
  · simp [recovered, hpipe, hmode, he, State.emit, hc']
  · simpa [Context.Error, Context.Abort] using hb
  · intro hfresh
    simpa [Context.Error, Context.Abort] using (hfr hfresh).2.2

/-- C3, at a transport disconnect recovered in debug mode before anything was
written: the value is classified as a disconnect, and yet `recovery` sends the
status line 500 and a JSON body to the client before it registers the error
and aborts the chain. -/
theorem recovery_disconnect_debug_sends :
    brokenPipe (sampleEnv true) brokenPipeError = .ok true ∧
    ∃ s', recovery (sampleEnv true) (panicsWith brokenPipeError) {} = .ok s' ∧
      s'.ctx.Writer.sent = [.statusLine 500, .body "stack,message"] ∧
      s'.ctx.Errors.length = 1 ∧ s'.ctx.aborted = true :=
  ⟨rfl, _, rfl, by decide, by decide, by decide⟩

/-- C4, as stated, fails at two inputs. In non-debug mode, a handler that has
written "hi" under the status 200 and then panics with the string "boom": the
value is an application fault, and the client has the status line 200 and the
body "hi", not the status 500 and an empty body. In debug mode, a handler that
panics with a channel before writing anything: the value is an application
fault, `json.Marshal` fails on it, and the client gets the status line 500 with
no body, not a JSON object. -/
theorem recovery_application_fault_counterexample :
    (brokenPipe (sampleEnv false) (.string "boom") = .ok false ∧
      ∃ s', recovery (sampleEnv false) (writesThenPanicsWith "hi" (.string "boom")) {} = .ok s' ∧
        s'.ctx.Writer.statusSent = [200] ∧ s'.ctx.Writer.bodySent = ["hi"]) ∧
    (brokenPipe (sampleEnv true) .chan = .ok false ∧
      ∃ s', recovery (sampleEnv true) (panicsWith .chan) {} = .ok s' ∧
        s'.ctx.Writer.statusSent = [500] ∧ s'.ctx.Writer.bodySent = []) :=
  ⟨⟨rfl, _, rfl, by decide, by decide⟩, ⟨rfl, _, rfl, by decide, by decide⟩⟩

/-- C4, amended: for a recovered value that is an application fault, and, in
debug mode, an object that is encoded and written without error, `recovery`
returns with the chain aborted. The body bytes it sends are, in debug mode,
the encoding of the object with the fields `stack` (one entry per captured
frame) and `message` (the recovered value), and none in non-debug mode. When
the handler had not started the response, the status is 500 and the status
line 500 goes out. -/
theorem recovery_application_fault (env : Env) (next : State → State × Option PanicValue)
    (s s₁ : State) (err : PanicValue) (hnext : next s = (s₁, some err))
    (hfault : brokenPipe env err = .ok false)
    (hrender : env.IsDebugging = true →
      ∃ body, env.Marshal [("stack", .records (stackFields (env.Stack 3))),
        ("message", .panic err)] = .ok body ∧ (env.Write body).2 = none) :
    ∃ s', recovery env next s = .ok s' ∧ s'.ctx.aborted = true ∧
      (stackFields (env.Stack 3)).length = (env.Stack 3).length ∧
      (env.IsDebugging = false → s'.ctx.Writer.bodySent = s₁.ctx.Writer.bodySent) ∧
      (env.IsDebugging = true →
        ∃ body, env.Marshal [("stack", .records (stackFields (env.Stack 3))),
            ("message", .panic err)] = .ok body ∧
          s'.ctx.Writer.bodySent = s₁.ctx.Writer.bodySent ++ [body]) ∧
      (s₁.ctx.Writer.Written = false →
        s'.ctx.Writer.status = 500 ∧
        s'.ctx.Writer.statusSent = s₁.ctx.Writer.statusSent ++ [500]) := by
  cases hmode : env.IsDebugging
  · refine ⟨{ s₁ with
        log := s₁.log ++
          [{ level := .error
             fields := [("log_type", .str "foundation.server.server"),
               ("stack", .frames (env.Stack 3)),
               ("request", .str (env.DumpRequest s₁.ctx.Request false))]
             args := [] }]
        ctx := s₁.ctx.AbortWithStatus 500 }, ?_, ?_, stackFields_length _, ?_, ?_, ?_⟩
    · simp [recovery, hnext, recovered, hfault, hmode, State.emit]
    · exact AbortWithStatus_aborted _ _
    · intro _
      exact AbortWithStatus_bodySent _ _
    · intro h
      cases h
    · intro hfresh
      obtain ⟨-, h2, h3, -⟩ := AbortWithStatus_fresh s₁.ctx hfresh
      simp [h2, h3, ResponseWriter.statusSent]
  · obtain ⟨body, hm, hw⟩ := hrender hmode
    obtain ⟨c', hc', -, -, hb, hfr⟩ := AbortWithStatusJSON_sends env s₁.ctx _ body hm hw
    refine ⟨{ s₁ with
        log := s₁.log ++
          [{ level := .error
             fields := [("log_type", .str "foundation.server.server")]
             args := [.str (env.DumpRequest s₁.ctx.Request false)] },
           { level := .error
             fields := [("log_type", .str "foundation.server.server"),
               ("stack", .records (stackFields (env.Stack 3)))]
             args := [.panic err] }]
        ctx := c'.AbortWithStatus 500 }, ?_, ?_, stackFields_length _, ?_, ?_, ?_⟩
    · simp [recovery, hnext, recovered, hfault, hmode, State.emit, hc']
    · exact AbortWithStatus_aborted _ _
    · intro h
      cases h
    · intro _
      exact ⟨body, hm, by simpa [AbortWithStatus_bodySent] using hb⟩
    · intro hfresh
      obtain ⟨h1, h2, h3⟩ := hfr hfresh
      obtain ⟨-, h4⟩ := AbortWithStatus_written c' h2 h1
      simp [h4, h1, h3, ResponseWriter.statusSent]

/-- C4, amended, at a concrete input: a handler that panics with the string
"boom" in debug mode before writing anything. -/
theorem recovery_application_fault_witness :
    ∃ s', recovery (sampleEnv true) (panicsWith (.string "boom")) {} = .ok s' ∧
      s'.ctx.aborted = true ∧
      (stackFields ((sampleEnv true).Stack 3)).length = ((sampleEnv true).Stack 3).length ∧
      ((sampleEnv true).IsDebugging = false →
        s'.ctx.Writer.bodySent = ({} : State).ctx.Writer.bodySent) ∧
      ((sampleEnv true).IsDebugging = true →
        ∃ body, (sampleEnv true).Marshal
            [("stack", .records (stackFields ((sampleEnv true).Stack 3))),
              ("message", .panic (.string "boom"))] = .ok body ∧
          s'.ctx.Writer.bodySent = ({} : State).ctx.Writer.bodySent ++ [body]) ∧
      (({} : State).ctx.Writer.Written = false →
        s'.ctx.Writer.status = 500 ∧
        s'.ctx.Writer.statusSent = ({} : State).ctx.Writer.statusSent ++ [500]) :=
  recovery_application_fault (sampleEnv true) (panicsWith (.string "boom")) {} {}
    (.string "boom") rfl rfl (fun _ => ⟨"stack,message", rfl, rfl⟩)

/-- C5, as stated, fails at three inputs: a handler that panics with a nil
`*net.OpError` (the access `ne.Err` panics), one that panics with a
`*net.OpError` whose `Err` is a nil `*os.SyscallError` (the call `se.Error()`
panics), and, in debug mode under a gin that panics on render errors, one
that panics with a channel (`json.Marshal` fails on it). In each the new panic
leaves `recovery`. -/
theorem recovery_returns_counterexample :
    recovery (sampleEnv false) (panicsWith (.error .nilOpError)) {} =
      .error nilDereference ∧
    recovery (sampleEnv false)
      (panicsWith (.error (.opError "write" "tcp" none none .nilSyscallError))) {} =
      .error nilDereference ∧
    recovery (sampleEnvOlderGin true) (panicsWith .chan) {} =
      .error (.error (.other "json: unsupported type: chan int")) :=
  ⟨rfl, rfl, rfl⟩

/-- C5, amended: for every downstream chain, whether it completes or panics,
and every value it panics with that holds no nil pointer, `recovery` returns
normally, provided that the server is not in debug mode, or the gin release
registers render errors, or every object is encoded and written without
error. The assertion `err.(error)` is reached only for a value classified as
a transport disconnect, and such a value is an error, so the assertion
succeeds. -/
theorem recovery_returns (env : Env) (next : State → State × Option PanicValue)
    (s : State)
    (hval : ∀ s₁ err, next s = (s₁, some err) → err.nilFree = true)
    (hrender : env.IsDebugging = false ∨ env.RenderPanics = false ∨
      ∀ obj, ∃ body, env.Marshal obj = .ok body ∧ (env.Write body).2 = none) :
    (∃ s', recovery env next s = .ok s') ∧
    (∀ err, brokenPipe env err = .ok true → ∃ e, err.asError = some e) := by
  have key : ∀ err, brokenPipe env err = .ok true → ∃ e, err.asError = some e := by
    intro err h
    obtain ⟨e, -, he⟩ := asError_of_brokenPipe env err h
    exact ⟨e, he⟩
  refine ⟨?_, key⟩
  unfold recovery
  rcases hn : next s with ⟨s₁, _ | err⟩
  · exact ⟨_, rfl⟩
  · obtain ⟨b, hb⟩ := brokenPipe_of_nilFree env err (hval s₁ err hn)
    have hr : env.IsDebugging = true → ∃ c', s₁.ctx.AbortWithStatusJSON env 500
        [("stack", .records (stackFields (env.Stack 3))), ("message", .panic err)] =
          .ok c' := by
      intro hmode
      apply AbortWithStatusJSON_returns
      rcases hrender with h | h | h
      · simp [hmode] at h
      · exact Or.inl h
      · exact Or.inr (h _)
    cases b
    · cases hmode : env.IsDebugging
      · simp [recovered, hb, hmode]
      · obtain ⟨c', hc'⟩ := hr hmode
        simp [recovered, hb, hmode, State.emit, hc']
    · obtain ⟨e, he⟩ := key err hb
      cases hmode : env.IsDebugging
      · simp [recovered, hb, hmode, he]
      · obtain ⟨c', hc'⟩ := hr hmode
        simp [recovered, hb, hmode, State.emit, hc', he]

/-- C5, amended, at a concrete input: a handler that panics with a broken pipe
error in debug mode, under a gin that registers render errors. -/
theorem recovery_returns_witness :
    (∃ s', recovery (sampleEnv true) (panicsWith brokenPipeError) {} = .ok s') ∧
    (∀ err, brokenPipe (sampleEnv true) err = .ok true → ∃ e, err.asError = some e) :=
  recovery_returns (sampleEnv true) (panicsWith brokenPipeError) {}
    (fun s₁ err h => by
      have h2 : brokenPipeError = err := by
        simpa [panicsWith] using congrArg (fun p => p.2) h
      subst h2
      decide)
    (Or.inr (Or.inl rfl))

/-- In non-debug mode the one record `recovery` emits is the same whatever the
recovered value: it carries the stack and the request dump, and its `Error`
call has no argument. -/
theorem recovered_release_log (env : Env) (err : PanicValue) (s : State) (b : Bool)
    (hmode : env.IsDebugging = false) (hclass : brokenPipe env err = .ok b) :
    ∃ s', recovered env err s = .ok s' ∧
      s'.log = s.log ++
        [{ level := .error
           fields := [("log_type", .str "foundation.server.server"),
             ("stack", .frames (env.Stack 3)),
             ("request", .str (env.DumpRequest s.ctx.Request false))]
           args := [] }] := by
  cases b
  · simp [recovered, hclass, hmode, State.emit]
  · obtain ⟨e, -, he⟩ := asError_of_brokenPipe env err hclass
    simp [recovered, hclass, hmode, he, State.emit]

/-- C6, at a handler that panics with the string "boom" in non-debug mode: the
one record `recovery` emits is at error level and carries the stack and the
request dump, but the recovered value is nowhere in it: the `Error` call has
no argument. -/
theorem recovery_release_log_omits_fault :
    ∃ s', recovery (sampleEnv false) (panicsWith (.string "boom")) {} = .ok s' ∧
      s'.log =
        [{ level := .error
           fields := [("log_type", .str "foundation.server.server"),
             ("stack", .frames [⟨"main.handler", "panic(err)", "main.go", 42⟩]),
             ("request", .str "GET ")]
           args := [] }] ∧
      (∀ e ∈ s'.log, Value.panic (.string "boom") ∉ e.args ∧
        ∀ kv ∈ e.fields, kv.2 ≠ Value.panic (.string "boom")) :=
  ⟨_, rfl, by decide, by decide⟩


/-! ## Properties of the logging middleware -/

/-- C7: for a downstream chain that completes, `logger` emits exactly one
record, at info level, after the chain, and leaves the context as the chain
left it. The record's method, status, body size, client IP and user agent are
the request's method, the writer's status and size, the context's client IP
and the request's user agent as they are after the chain; its category tag is
"foundation.server.server"; it has a `keys` field, holding the context keys,
exactly when the server is not in debug mode. -/
theorem logger_record (env : Env) (next : State → State) (s : State) :
    ∃ e, (logger env next s).log = (next s).log ++ [e] ∧
      (logger env next s).ctx = (next s).ctx ∧
      e.level = .info ∧
      e.field "method" = some (.str (next s).ctx.Request.Method) ∧
      e.field "status" = some (.int (next s).ctx.Writer.status) ∧
      e.field "body_size" = some (.int (next s).ctx.Writer.size) ∧
      e.field "client_ip" = some (.str (env.ClientIP (next s).ctx.Request)) ∧
      e.field "user_agent" = some (.str (next s).ctx.Request.UserAgent) ∧
      e.field "log_type" = some (.str "foundation.server.server") ∧
      ((e.field "keys").isSome = true ↔ env.IsDebugging = false) ∧
      (env.IsDebugging = false → e.field "keys" = some (.keys (next s).ctx.Keys)) := by
  cases hmode : env.IsDebugging <;>
    simp [logger, hmode, State.emit, Entry.field, Fields.set, List.lookup]

/-- The path field is the path alone for an empty query string, so it differs
from the path followed by "?" and anything. -/
theorem path_ne_path_query (path raw : String) : path ≠ path ++ "?" ++ raw := by
  intro h
  have h2 := congrArg String.data h
  simp [String.data_append] at h2

/-- Appending the query string to the same path is injective. -/
theorem path_query_injective (path raw₁ raw₂ : String)
    (h : path ++ "?" ++ raw₁ = path ++ "?" ++ raw₂) : raw₁ = raw₂ := by
  have h2 := congrArg String.data h
  simp only [String.data_append, List.append_assoc, List.append_cancel_left_eq] at h2
  exact String.ext h2

/-- C8: the `path` field of the record `logger` emits is the request path alone
when the raw query string is empty and the request path followed by "?" and
the raw query string otherwise, both as they were before the downstream chain
ran; two requests to the same path with different query strings get records
with different `path` fields. -/
theorem logger_path (env : Env) (next₁ next₂ : State → State) (s₁ s₂ : State)
    (hpath : s₁.ctx.Request.URL.Path = s₂.ctx.Request.URL.Path)
    (hraw : s₁.ctx.Request.URL.RawQuery ≠ s₂.ctx.Request.URL.RawQuery) :
    ∃ e₁ e₂, (logger env next₁ s₁).log = (next₁ s₁).log ++ [e₁] ∧
      (logger env next₂ s₂).log = (next₂ s₂).log ++ [e₂] ∧
      e₁.field "path" = some (.str
        (if s₁.ctx.Request.URL.RawQuery = "" then s₁.ctx.Request.URL.Path
          else s₁.ctx.Request.URL.Path ++ "?" ++ s₁.ctx.Request.URL.RawQuery)) ∧
      e₂.field "path" = some (.str
        (if s₂.ctx.Request.URL.RawQuery = "" then s₂.ctx.Request.URL.Path
          else s₂.ctx.Request.URL.Path ++ "?" ++ s₂.ctx.Request.URL.RawQuery)) ∧
      e₁.field "path" ≠ e₂.field "path" := by
  have hne : (if s₁.ctx.Request.URL.RawQuery = "" then s₁.ctx.Request.URL.Path
        else s₁.ctx.Request.URL.Path ++ "?" ++ s₁.ctx.Request.URL.RawQuery) ≠
      (if s₂.ctx.Request.URL.RawQuery = "" then s₂.ctx.Request.URL.Path
        else s₂.ctx.Request.URL.Path ++ "?" ++ s₂.ctx.Request.URL.RawQuery) := by
    rw [hpath]
    by_cases h1 : s₁.ctx.Request.URL.RawQuery = "" <;>
      by_cases h2 : s₂.ctx.Request.URL.RawQuery = ""
    · exact absurd (h1.trans h2.symm) hraw
    · simpa [h1, h2] using path_ne_path_query _ _
    · simpa [h1, h2] using (path_ne_path_query _ _).symm
    · simp only [h1, h2, if_false]
      exact fun h => hraw (path_query_injective _ _ _ h)
  have key : ∀ (next : State → State) (s : State),
      ∃ e, (logger env next s).log = (next s).log ++ [e] ∧
        e.field "path" = some (.str
          (if s.ctx.Request.URL.RawQuery = "" then s.ctx.Request.URL.Path
            else s.ctx.Request.URL.Path ++ "?" ++ s.ctx.Request.URL.RawQuery)) := by
    intro next s
    cases hmode : env.IsDebugging <;>
      by_cases h : s.ctx.Request.URL.RawQuery = "" <;>
        simp [logger, hmode, h, State.emit, Entry.field, Fields.set, List.lookup]
  obtain ⟨e₁, h₁, p₁⟩ := key next₁ s₁
  obtain ⟨e₂, h₂, p₂⟩ := key next₂ s₂
  refine ⟨e₁, e₂, h₁, h₂, p₁, p₂, ?_⟩
  rw [p₁, p₂]
  simpa using hne

/-- C8 at a concrete input: two requests to `/items` with the query strings
`page=1` and `page=2`. -/
theorem logger_path_witness :
    ∃ e₁ e₂,
      (logger (sampleEnv false) id (requestTo "/items" "page=1")).log =
        (id (requestTo "/items" "page=1")).log ++ [e₁] ∧
      (logger (sampleEnv false) id (requestTo "/items" "page=2")).log =
        (id (requestTo "/items" "page=2")).log ++ [e₂] ∧
      e₁.field "path" = some (.str
        (if (requestTo "/items" "page=1").ctx.Request.URL.RawQuery = ""
          then (requestTo "/items" "page=1").ctx.Request.URL.Path
          else (requestTo "/items" "page=1").ctx.Request.URL.Path ++ "?" ++
            (requestTo "/items" "page=1").ctx.Request.URL.RawQuery)) ∧
      e₂.field "path" = some (.str
        (if (requestTo "/items" "page=2").ctx.Request.URL.RawQuery = ""
          then (requestTo "/items" "page=2").ctx.Request.URL.Path
          else (requestTo "/items" "page=2").ctx.Request.URL.Path ++ "?" ++
            (requestTo "/items" "page=2").ctx.Request.URL.RawQuery)) ∧
      e₁.field "path" ≠ e₂.field "path" :=
  logger_path (sampleEnv false) id id (requestTo "/items" "page=1")
    (requestTo "/items" "page=2") rfl (by decide)

/-! ## Properties of the startup sequence -/

/-- C10: whatever the configuration bind returns, `Run` performs the logging,
persistence and view startup hooks in that order, the configuration bind, the
validator replacement, one call of the route-registration function on the
shared engine, and then builds one server from the handler of the engine the
registration acted on and hands it to the graceful-restart runner; a bind
failure adds only the printing of the error. -/
theorem Run_steps {E H : Type} (sys : Sys E H) (Config : application) (router : E → E) :
    Run sys Config router =
      [.logStart, .ormStart, .viewInit, .viewAddPath ("/view/" ++ sys.Mode ++ "/"),
        .configBind "application" ("application." ++ sys.Mode)] ++
      (match (sys.Bind "application" ("application." ++ sys.Mode) Config).2 with
        | some e => [.println e]
        | none => []) ++
      [.setValidator, .logInfo, .getEngine, .router sys.GetEngine,
        .getHandler (router sys.GetEngine),
        .createServer (createServer sys.LoadX509KeyPair
          (sys.Bind "application" ("application." ++ sys.Mode) Config).1
          (sys.GetHandler (router sys.GetEngine))),
        .serveWithOptions [createServer sys.LoadX509KeyPair
          (sys.Bind "application" ("application." ++ sys.Mode) Config).1
          (sys.GetHandler (router sys.GetEngine))]] := by
  unfold Run start
  rcases hb : sys.Bind "application" ("application." ++ sys.Mode) Config with ⟨cfg, _ | e⟩ <;>
    simp

end server
